import Mathlib

/-!
Verification of the desk-control library (desk.py): the command-packet
codec, the telemetry decoder and height tracker, the move-to-height
convergence loop and the sit/stand alternation scheduler, embedded
shallowly in Lean.
-/

namespace DeskControl

/-! ## Packet codec (desk.py, `build_move_packet`) -/

def MIN_HEIGHT_MM : Int := 650
def MAX_HEIGHT_MM : Int := 1300

/-- The clamp applied by `build_move_packet`:
`max(MIN_HEIGHT_MM, min(MAX_HEIGHT_MM, target_mm))`. -/
def clampHeight (targetMm : Int) : Int := max MIN_HEIGHT_MM (min MAX_HEIGHT_MM targetMm)

/-- `build_move_packet(target_mm)`: clamp, split into high/low bytes,
assemble `[0xA6, 0xA8, 0x01, hi, lo, 0x00, 0x00]`, append the XOR of
`body[2:]` and the trailer `0xFF`. -/
def buildMovePacket (targetMm : Int) : List Nat :=
  let t : Nat := (clampHeight targetMm).toNat
  let hi : Nat := (t >>> 8) % 256
  let lo : Nat := t % 256
  let body : List Nat := [0xA6, 0xA8, 0x01, hi, lo, 0x00, 0x00]
  let chk : Nat := (body.drop 2).foldl (fun a b => a ^^^ b) 0
  body ++ [chk, 0xFF]

theorem clampHeight_bounds (target : Int) :
    650 ≤ clampHeight target ∧ clampHeight target ≤ 1300 := by
  unfold clampHeight MIN_HEIGHT_MM MAX_HEIGHT_MM
  exact ⟨le_max_left _ _, max_le (by norm_num) (min_le_left _ _)⟩

/-- C1: `build_move_packet` clamps the target into [650, 1300] and returns
exactly the 9-byte frame `[0xA6, 0xA8, 0x01, hi, lo, 0x00, 0x00, checksum, 0xFF]`
where `(hi, lo)` is the big-endian split of the clamped height and the
checksum is the XOR of the bytes `[0x01, hi, lo, 0x00, 0x00]` (indices 2..6);
in particular `build_move_packet 0 = build_move_packet 650` and
`build_move_packet 9999 = build_move_packet 1300`.  The function is total. -/
theorem build_move_packet_spec (target : Int) :
    650 ≤ clampHeight target ∧ clampHeight target ≤ 1300 ∧
    (∃ hi lo, 256 * hi + lo = (clampHeight target).toNat ∧ hi < 256 ∧ lo < 256 ∧
      buildMovePacket target =
        [0xA6, 0xA8, 0x01, hi, lo, 0x00, 0x00,
         List.foldl (fun a b => a ^^^ b) 0 [0x01, hi, lo, 0x00, 0x00], 0xFF]) ∧
    buildMovePacket 0 = buildMovePacket 650 ∧
    buildMovePacket 9999 = buildMovePacket 1300 := by
  have hb := clampHeight_bounds target
  have ht : (clampHeight target).toNat ≤ 1300 := by omega
  refine ⟨hb.1, hb.2,
    ⟨(clampHeight target).toNat / 256, (clampHeight target).toNat % 256,
      Nat.div_add_mod _ _, by omega, by omega, ?_⟩, by decide, by decide⟩
  have hs : (clampHeight target).toNat >>> 8 = (clampHeight target).toNat / 256 := by
    rw [Nat.shiftRight_eq_div_pow]
  have hm : (clampHeight target).toNat / 256 % 256 = (clampHeight target).toNat / 256 := by
    omega
  simp [buildMovePacket, hs, hm]

/-! ## Telemetry decoder and height tracker (desk.py, `Desk._on_height`,
`Desk.height_mm`, `Desk.height_cm`)

A notification payload is a list of byte values.  `Desk._on_height` ASCII
decodes it (failing when a byte is not ASCII, i.e. `≥ 128`), accepts it when
the result is exactly 4 decimal digit characters, and then stores the parsed
base-10 integer and sets the update event; every failure is absorbed. -/

/-- One byte of the payload is an ASCII decimal digit character. -/
def isDigitByte (b : Nat) : Bool := decide (48 ≤ b) && decide (b ≤ 57)

/-- `int(s)` on a string of decimal digit characters. -/
def parseDigits (s : List Nat) : Nat := s.foldl (fun acc b => 10 * acc + (b - 48)) 0

/-- The acceptance test and parse of `Desk._on_height`: ASCII decode
(`bytes(data).decode("ascii")`, failing on any byte `≥ 128`), then
`len(s) == 4 and s.isdigit()`, then `int(s)`. -/
def decodePayload (data : List Nat) : Option Nat :=
  if data.all (fun b => decide (b < 128)) then
    if data.length == 4 && data.all isDigitByte then some (parseDigits data) else none
  else none

/-- The tracker state of a `Desk`: `_height_mm` (None until a reading is
accepted) and the `_height_updated` event flag. -/
structure DeskState where
  height : Option Nat
  updated : Bool
deriving DecidableEq

/-- `Desk._on_height`: on an accepted payload, store the parsed height and
set the update event; otherwise leave the state untouched (all failures are
swallowed by the handler). -/
def onHeight (st : DeskState) (data : List Nat) : DeskState :=
  match decodePayload data with
  | some h => { height := some h, updated := true }
  | none => st

/-- `Desk.height_mm`: surfaces the tracked height unchanged. -/
def heightMm (st : DeskState) : Option Nat := st.height

/-- `Desk.height_cm`: tracked height divided by 10, or None. -/
def heightCm (st : DeskState) : Option ℚ := st.height.map (fun h => (h : ℚ) / 10)

theorem decodePayload_eq_some_iff (data : List Nat) (n : Nat) :
    decodePayload data = some n ↔
      data.length = 4 ∧ (∀ b ∈ data, 48 ≤ b ∧ b ≤ 57) ∧ n = parseDigits data := by
  unfold decodePayload
  constructor
  · intro h
    by_cases ha : data.all (fun b => decide (b < 128)) = true
    · rw [if_pos ha] at h
      by_cases hb : (data.length == 4 && data.all isDigitByte) = true
      · rw [if_pos hb] at h
        rw [Bool.and_eq_true, beq_iff_eq, List.all_eq_true] at hb
        refine ⟨hb.1, fun b hbm => ?_, (Option.some.injEq _ _).mp h.symm⟩
        have := hb.2 b hbm
        rw [isDigitByte, Bool.and_eq_true, decide_eq_true_iff, decide_eq_true_iff] at this
        exact this
      · rw [if_neg hb] at h
        cases h
    · rw [if_neg ha] at h
      cases h
  · rintro ⟨h4, hdig, rfl⟩
    have ha : data.all (fun b => decide (b < 128)) = true := by
      rw [List.all_eq_true]
      intro b hbm
      have := hdig b hbm
      simp only [decide_eq_true_iff]
      omega
    have hb : (data.length == 4 && data.all isDigitByte) = true := by
      rw [Bool.and_eq_true, beq_iff_eq, List.all_eq_true]
      refine ⟨h4, fun b hbm => ?_⟩
      have := hdig b hbm
      rw [isDigitByte, Bool.and_eq_true, decide_eq_true_iff, decide_eq_true_iff]
      exact this
    rw [if_pos ha, if_pos hb]

theorem decodePayload_none_of_not_valid (data : List Nat)
    (h : ¬ (data.length = 4 ∧ ∀ b ∈ data, 48 ≤ b ∧ b ≤ 57)) :
    decodePayload data = none := by
  cases hd : decodePayload data with
  | none => rfl
  | some n =>
    rw [decodePayload_eq_some_iff] at hd
    exact absurd ⟨hd.1, hd.2.1⟩ h

theorem parseDigits_le_9999 (data : List Nat) (h4 : data.length = 4)
    (hdig : ∀ b ∈ data, 48 ≤ b ∧ b ≤ 57) : parseDigits data ≤ 9999 := by
  match data, h4 with
  | [a, b, c, d], _ =>
    have ha := hdig a (by simp)
    have hb := hdig b (by simp)
    have hc := hdig c (by simp)
    have hd := hdig d (by simp)
    simp only [parseDigits, List.foldl]
    omega

/-- C4: the decoder yields a reading iff the payload is exactly 4 ASCII
decimal digit bytes, in which case the parsed base-10 integer is surfaced
unchanged (no range clamp); every other payload yields no reading and leaves
the tracked height and the update signal untouched (the handler is a total
function: no exception reaches the caller). -/
theorem decode_valid_iff (data : List Nat) (st : DeskState) :
    ((∃ n, decodePayload data = some n) ↔
      (data.length = 4 ∧ ∀ b ∈ data, 48 ≤ b ∧ b ≤ 57)) ∧
    (∀ n, decodePayload data = some n → n = parseDigits data) ∧
    (decodePayload data = none → onHeight st data = st) := by
  refine ⟨⟨?_, ?_⟩, ?_, ?_⟩
  · rintro ⟨n, hn⟩
    rw [decodePayload_eq_some_iff] at hn
    exact ⟨hn.1, hn.2.1⟩
  · intro hv
    exact ⟨parseDigits data, (decodePayload_eq_some_iff data _).mpr ⟨hv.1, hv.2, rfl⟩⟩
  · intro n hn
    exact ((decodePayload_eq_some_iff data n).mp hn).2.2
  · intro hnone
    unfold onHeight
    rw [hnone]

/-- Witness for C4 at concrete inputs: the payload "999" (3 bytes) is
rejected and leaves a Known state untouched. -/
theorem decode_valid_iff_witness :
    decodePayload [57, 57, 57] = none ∧
    onHeight ⟨some 950, false⟩ [57, 57, 57] = ⟨some 950, false⟩ :=
  ⟨by decide, (decode_valid_iff [57, 57, 57] ⟨some 950, false⟩).2.2 (by decide)⟩

/-- C5: the height tracker is a two-state machine: from the initial Unknown
state or any Known state, processing an accepted reading `r` moves the state
to Known `r` and sets the update signal. -/
theorem onHeight_accepted (st : DeskState) (data : List Nat) (r : Nat)
    (h : decodePayload data = some r) :
    onHeight st data = { height := some r, updated := true } := by
  unfold onHeight
  rw [h]

/-- Witness for C5: the payload "0950" accepted from the Unknown state and
from a Known state, each transition storing 950 and setting the signal. -/
theorem onHeight_accepted_witness :
    decodePayload [48, 57, 53, 48] = some 950 ∧
    onHeight ⟨none, false⟩ [48, 57, 53, 48] = ⟨some 950, true⟩ ∧
    onHeight ⟨some 700, false⟩ [48, 57, 53, 48] = ⟨some 950, true⟩ :=
  ⟨by decide, onHeight_accepted ⟨none, false⟩ [48, 57, 53, 48] 950 (by decide),
    onHeight_accepted ⟨some 700, false⟩ [48, 57, 53, 48] 950 (by decide)⟩

/-- C9: every Known tracked height lies in [0, 9999] (only 4-digit payloads
can write it), values outside the command domain [650, 1300] — including 0
from the payload "0000" and 9999 from "9999" — can be stored and are
surfaced unchanged by `height_mm`, and the notification handler is the only
writer of the tracked height (`height_mm` is a pure read). -/
theorem tracked_height_range (st : DeskState) (data : List Nat)
    (hst : ∀ h, st.height = some h → h ≤ 9999) :
    (∀ h, (onHeight st data).height = some h → h ≤ 9999) ∧
    heightMm (onHeight st data) = (onHeight st data).height ∧
    onHeight ⟨none, false⟩ [48, 48, 48, 48] = ⟨some 0, true⟩ ∧
    heightMm ⟨some 0, true⟩ = some 0 ∧
    onHeight ⟨none, false⟩ [57, 57, 57, 57] = ⟨some 9999, true⟩ := by
  refine ⟨?_, rfl, by decide, rfl, by decide⟩
  intro h hh
  unfold onHeight at hh
  cases hd : decodePayload data with
  | none =>
    rw [hd] at hh
    exact hst h hh
  | some n =>
    rw [hd] at hh
    simp only [Option.some.injEq] at hh
    rw [decodePayload_eq_some_iff] at hd
    subst hh
    exact hd.2.2 ▸ parseDigits_le_9999 data hd.1 hd.2.1

/-- Witness for C9: starting from the Unknown state (vacuously in range),
processing the payload "4200" keeps the invariant while storing a value
outside the command domain. -/
theorem tracked_height_range_witness :
    (∀ h, (⟨none, false⟩ : DeskState).height = some h → h ≤ 9999) ∧
    (∀ h, (onHeight ⟨none, false⟩ [52, 50, 48, 48]).height = some h → h ≤ 9999) ∧
    heightMm (onHeight ⟨none, false⟩ [52, 50, 48, 48]) =
      (onHeight ⟨none, false⟩ [52, 50, 48, 48]).height := by
  have hvac : ∀ h, (⟨none, false⟩ : DeskState).height = some h → h ≤ 9999 := by
    intro h hh
    cases hh
  have hmain := tracked_height_range ⟨none, false⟩ [52, 50, 48, 48] hvac
  exact ⟨hvac, hmain.1, hmain.2.1⟩

/-! ## Move controller (desk.py, `Desk.move_to`)

`move_to` builds and writes one command packet, computes an absolute
deadline `now + timeout`, then loops: clear the update event and wait for it
with the remaining budget; a wait that times out breaks the loop (result
false); a wakeup checks the tracked height against the *raw* requested
target with the given tolerance.

The embedding makes the event timeline explicit: `tracker` is `_height_mm`
at call time, and `updates` is the time-ordered list of accepted readings
`(t, h)` delivered while the loop is waiting — a reading is delivered iff
its time is before the deadline (otherwise the wait times out first and the
loop ends).  An accepted reading overwrites the tracked height, so the value
checked at a wakeup is the reading that caused it. -/

/-- `self._height_mm is not None and abs(self._height_mm - target_mm) <= tolerance_mm`. -/
def heightOk (targetMm tol : Int) : Option Int → Bool
  | none => false
  | some h => decide (|h - targetMm| ≤ tol)

/-- The wait loop of `move_to`, driven by the list of accepted readings. -/
def moveToLoop (targetMm tol : Int) (deadline : ℚ) :
    Option Int → List (ℚ × Int) → Bool
  | _, [] => false
  | _, (t, h) :: rest =>
    if t < deadline then
      if heightOk targetMm tol (some h) then true
      else moveToLoop targetMm tol deadline (some h) rest
    else false

/-- The outcome of one `move_to` call: the packets written to the link and
the returned boolean. -/
structure MoveResult where
  sent : List (List Nat)
  reached : Bool
deriving DecidableEq

/-- `Desk.move_to(target_mm, timeout, tolerance_mm)`: write exactly one
encoded command, then run the wait loop against the deadline `t0 + timeout`
(`t0` is the clock when the call starts). -/
def moveTo (targetMm : Int) (timeout : ℚ) (tol : Int) (t0 : ℚ)
    (tracker : Option Int) (updates : List (ℚ × Int)) : MoveResult :=
  { sent := [buildMovePacket targetMm],
    reached := moveToLoop targetMm tol (t0 + timeout) tracker updates }

theorem moveToLoop_true_iff (targetMm tol : Int) (deadline : ℚ) :
    ∀ (updates : List (ℚ × Int)) (tracker : Option Int),
      updates.Sorted (fun a b => a.1 ≤ b.1) →
      (moveToLoop targetMm tol deadline tracker updates = true ↔
        ∃ u ∈ updates, u.1 < deadline ∧ |u.2 - targetMm| ≤ tol)
  | [], tracker, _ => by simp [moveToLoop]
  | (t, h) :: rest, tracker, hsort => by
    rw [List.sorted_cons] at hsort
    by_cases ht : t < deadline
    · by_cases hok : |h - targetMm| ≤ tol
      · constructor
        · intro _
          exact ⟨(t, h), List.mem_cons_self _ _, ht, hok⟩
        · intro _
          simp [moveToLoop, ht, heightOk, hok]
      · have hstep : moveToLoop targetMm tol deadline tracker ((t, h) :: rest) =
            moveToLoop targetMm tol deadline (some h) rest := by
          simp [moveToLoop, ht, heightOk, hok]
        rw [hstep, moveToLoop_true_iff targetMm tol deadline rest (some h) hsort.2]
        constructor
        · rintro ⟨u, hu, hc⟩
          exact ⟨u, List.mem_cons_of_mem _ hu, hc⟩
        · rintro ⟨u, hu, hc⟩
          rcases List.mem_cons.mp hu with rfl | hu'
          · exact absurd hc.2 hok
          · exact ⟨u, hu', hc⟩
    · have hstep : moveToLoop targetMm tol deadline tracker ((t, h) :: rest) = false := by
        simp [moveToLoop, ht]
      rw [hstep]
      constructor
      · intro hfalse
        exact absurd hfalse (by simp)
      · rintro ⟨u, hu, hlt, _⟩
        rcases List.mem_cons.mp hu with rfl | hu'
        · exact absurd hlt ht
        · exact absurd (lt_of_le_of_lt (hsort.1 u hu') hlt) ht

/-- C3: `move_to` sends exactly one command (no retries), and returns true
iff an accepted reading delivered before the absolute deadline
`t0 + timeout` is within `tol` of the target; with no qualifying reading —
in particular when a wait times out with no update — it returns false. -/
theorem moveTo_one_send_reached_iff (targetMm : Int) (timeout : ℚ) (tol : Int)
    (t0 : ℚ) (tracker : Option Int) (updates : List (ℚ × Int))
    (hsort : updates.Sorted (fun a b => a.1 ≤ b.1)) :
    (moveTo targetMm timeout tol t0 tracker updates).sent = [buildMovePacket targetMm] ∧
    ((moveTo targetMm timeout tol t0 tracker updates).reached = true ↔
      ∃ u ∈ updates, u.1 < t0 + timeout ∧ |u.2 - targetMm| ≤ tol) :=
  ⟨rfl, moveToLoop_true_iff targetMm tol (t0 + timeout) updates tracker hsort⟩

/-- Witness for C3: a single reading at time 5 with height 1005 against
target 1000, tolerance 10, timeout 30. -/
theorem moveTo_one_send_reached_iff_witness :
    (moveTo 1000 30 10 0 none [((5 : ℚ), (1005 : Int))]).sent = [buildMovePacket 1000] ∧
    ((moveTo 1000 30 10 0 none [((5 : ℚ), (1005 : Int))]).reached = true ↔
      ∃ u ∈ [((5 : ℚ), (1005 : Int))], u.1 < 0 + 30 ∧ |u.2 - 1000| ≤ 10) :=
  moveTo_one_send_reached_iff 1000 30 10 0 none [((5 : ℚ), (1005 : Int))]
    (List.sorted_singleton _)

/-- C2 counterexample: `move_to` does NOT clamp the target before comparing
deltas.  With a reading of 1295 mm arriving at time 5, `move_to 1300`
(timeout 30, tolerance 10) returns true but `move_to 9999` returns false,
so the two calls do not behave identically. -/
theorem moveTo_no_clamp_counterexample :
    (moveTo 1300 30 10 0 none [((5 : ℚ), (1295 : Int))]).reached = true ∧
    (moveTo 9999 30 10 0 none [((5 : ℚ), (1295 : Int))]).reached = false := by
  constructor <;> norm_num [moveTo, moveToLoop, heightOk]

/-- C2 amended: `move_to` clamps the target only when building the command
packet; the convergence check compares reported heights against the raw
requested target.  Hence `move_to 9999` and `move_to 1300` send the same
single packet, but `move_to 9999` returns true only when a reading is within
tolerance of 9999 itself. -/
theorem moveTo_clamp_packet_only (timeout : ℚ) (tol : Int) (t0 : ℚ)
    (tracker : Option Int) (updates : List (ℚ × Int))
    (hsort : updates.Sorted (fun a b => a.1 ≤ b.1)) :
    (moveTo 9999 timeout tol t0 tracker updates).sent =
      (moveTo 1300 timeout tol t0 tracker updates).sent ∧
    ((moveTo 9999 timeout tol t0 tracker updates).reached = true ↔
      ∃ u ∈ updates, u.1 < t0 + timeout ∧ |u.2 - 9999| ≤ tol) := by
  refine ⟨?_, moveToLoop_true_iff 9999 tol (t0 + timeout) updates tracker hsort⟩
  show [buildMovePacket 9999] = [buildMovePacket 1300]
  decide

/-- Witness for the amended C2: the concrete trace of the counterexample. -/
theorem moveTo_clamp_packet_only_witness :
    (moveTo 9999 30 10 0 none [((5 : ℚ), (1295 : Int))]).sent =
      (moveTo 1300 30 10 0 none [((5 : ℚ), (1295 : Int))]).sent ∧
    ((moveTo 9999 30 10 0 none [((5 : ℚ), (1295 : Int))]).reached = true ↔
      ∃ u ∈ [((5 : ℚ), (1295 : Int))], u.1 < 0 + 30 ∧ |u.2 - 9999| ≤ 10) :=
  moveTo_clamp_packet_only 30 10 0 none [((5 : ℚ), (1295 : Int))]
    (List.sorted_singleton _)

/-- C10: with a timeout `≤ 0` the deadline is not in the future, so
`move_to` still sends exactly one command and then returns false without a
single loop iteration — whatever the tracked height at call time (every
reading is delivered at or after the call time `t0`). -/
theorem moveTo_nonpos_timeout (targetMm : Int) (timeout : ℚ) (tol : Int)
    (t0 : ℚ) (tracker : Option Int) (updates : List (ℚ × Int))
    (hto : timeout ≤ 0) (hupd : ∀ u ∈ updates, t0 ≤ u.1) :
    (moveTo targetMm timeout tol t0 tracker updates).sent.length = 1 ∧
    (moveTo targetMm timeout tol t0 tracker updates).reached = false := by
  refine ⟨rfl, ?_⟩
  cases updates with
  | nil => rfl
  | cons a rest =>
    have h1 : t0 + timeout ≤ a.1 := by
      have := hupd a (List.mem_cons_self _ _)
      linarith
    obtain ⟨t, h⟩ := a
    show moveToLoop targetMm tol (t0 + timeout) tracker ((t, h) :: rest) = false
    simp only [moveToLoop]
    rw [if_neg (not_lt.mpr h1)]

/-- Witness for C10: timeout 0, tracked height already exactly on target —
the call still sends its one packet and returns false. -/
theorem moveTo_nonpos_timeout_witness :
    ((0 : ℚ) ≤ 0) ∧ (∀ u ∈ [((1 : ℚ), (1000 : Int))], (0 : ℚ) ≤ u.1) ∧
    (moveTo 1000 0 10 0 (some 1000) [((1 : ℚ), (1000 : Int))]).sent.length = 1 ∧
    (moveTo 1000 0 10 0 (some 1000) [((1 : ℚ), (1000 : Int))]).reached = false := by
  have hupd : ∀ u ∈ [((1 : ℚ), (1000 : Int))], (0 : ℚ) ≤ u.1 := by
    intro u hu
    rcases List.mem_singleton.mp hu with rfl
    norm_num
  have hmain := moveTo_nonpos_timeout 1000 0 10 0 (some 1000)
    [((1 : ℚ), (1000 : Int))] le_rfl hupd
  exact ⟨le_rfl, hupd, hmain.1, hmain.2⟩

/-! ## Alternation scheduler (desk.py, `_auto`)

Startup: `next_is_stand` is initialised from the current height (in cm) and
the two presets.  Loop body, per iteration: an interruptible interval wait
(stop set at loop top or firing during the wait exits the loop), the
countdown dialog returning `skipped`, a stop check, the skip check, then the
move and the unconditional flip of `next_is_stand`. -/

/-- The `next_is_stand` initialisation of `_auto` from the current height
`h` (cm, None if unknown) and the sit/stand presets (cm). -/
def initialNextIsStand (h : Option ℚ) (sit stand : ℚ) : Bool :=
  match h with
  | none => true
  | some hv =>
    if |hv - stand| < 2 then false
    else if 2 ≤ |hv - sit| then decide (|hv - sit| < |hv - stand|)
    else true

/-- The target of the first scheduled action. -/
def firstTarget (h : Option ℚ) (sit stand : ℚ) : ℚ :=
  if initialNextIsStand h sit stand then stand else sit

/-- Observable outcome of one iteration of the `_auto` loop: whether the
loop exits, the targets handed to the move controller, the value of
`next_is_stand` for the following iteration, and the reported move outcome
(None when no move ran). -/
structure AutoIterResult where
  exits : Bool
  moves : List ℚ
  nextIsStand : Bool
  reported : Option Bool
deriving DecidableEq

/-- One iteration of the `_auto` loop.  `stopDuringWait` is true when the
stop event is set at the top of the loop or fires during the interval wait;
`skipped` is the countdown dialog's result; `stopAfterCountdown` is the
`stop.is_set()` check after the countdown; `moveOk` is the boolean returned
by `move_to_cm` when a move runs. -/
def autoIter (sit stand : ℚ) (nextIsStand : Bool)
    (stopDuringWait skipped stopAfterCountdown moveOk : Bool) : AutoIterResult :=
  if stopDuringWait then ⟨true, [], nextIsStand, none⟩
  else
    let target := if nextIsStand then stand else sit
    if stopAfterCountdown then ⟨true, [], nextIsStand, none⟩
    else if skipped then ⟨false, [], nextIsStand, none⟩
    else ⟨false, [target], !nextIsStand, some moveOk⟩

/-- C6: in a non-stopped iteration, a user skip performs no move and leaves
`next_is_stand` unchanged for the following iteration, while a non-skipped,
non-cancelled iteration moves to the target selected by `next_is_stand` and
then flips it — for both values of the move outcome (reached or timed
out). -/
theorem autoIter_skip_and_flip (sit stand : ℚ) (next moveOk : Bool) :
    (autoIter sit stand next false true false moveOk).moves = [] ∧
    (autoIter sit stand next false true false moveOk).nextIsStand = next ∧
    (autoIter sit stand next false true false moveOk).exits = false ∧
    (autoIter sit stand next false false false moveOk).moves =
      [if next then stand else sit] ∧
    (autoIter sit stand next false false false moveOk).nextIsStand = !next ∧
    (autoIter sit stand next false false false moveOk).reported = some moveOk :=
  ⟨rfl, rfl, rfl, rfl, rfl, rfl⟩

/-- C7: the first scheduled action targets sit when the known height is
within 2.0 cm of the stand preset; otherwise it targets the preset opposite
the one the height is strictly closer to; with the height unknown it targets
stand. -/
theorem firstTarget_startup (hv sit stand : ℚ) :
    (|hv - stand| < 2 → firstTarget (some hv) sit stand = sit) ∧
    (¬ |hv - stand| < 2 → |hv - sit| < |hv - stand| →
      firstTarget (some hv) sit stand = stand) ∧
    (¬ |hv - stand| < 2 → |hv - stand| < |hv - sit| →
      firstTarget (some hv) sit stand = sit) ∧
    firstTarget none sit stand = stand := by
  refine ⟨?_, ?_, ?_, rfl⟩
  · intro hns
    simp [firstTarget, initialNextIsStand, hns]
  · intro hns hcl
    by_cases h2 : 2 ≤ |hv - sit|
    · simp [firstTarget, initialNextIsStand, hns, h2, hcl]
    · simp [firstTarget, initialNextIsStand, hns, h2]
  · intro hns hcl
    have h2 : 2 ≤ |hv - sit| := by
      push_neg at hns
      linarith
    have hnlt : ¬ |hv - sit| < |hv - stand| := not_lt.mpr (le_of_lt hcl)
    simp [firstTarget, initialNextIsStand, hns, h2, hnlt]

/-- Witness for C7: with presets sit = 73 cm and stand = 105 cm — height
104 cm (within 2 of stand) targets sit; height 80 cm (closer to sit) targets
stand; height 90 cm (closer to stand) targets sit; unknown height targets
stand. -/
theorem firstTarget_startup_witness :
    (|(104 : ℚ) - 105| < 2 ∧ firstTarget (some 104) 73 105 = 73) ∧
    (¬ |(80 : ℚ) - 105| < 2 ∧ |(80 : ℚ) - 73| < |(80 : ℚ) - 105| ∧
      firstTarget (some 80) 73 105 = 105) ∧
    (¬ |(90 : ℚ) - 105| < 2 ∧ |(90 : ℚ) - 105| < |(90 : ℚ) - 73| ∧
      firstTarget (some 90) 73 105 = 73) ∧
    firstTarget none 73 105 = 105 := by
  have h1 : |(104 : ℚ) - 105| < 2 := by
    rw [abs_sub_comm]
    norm_num
  have h2a : ¬ |(80 : ℚ) - 105| < 2 := by
    rw [abs_sub_comm]
    norm_num
  have h2b : |(80 : ℚ) - 73| < |(80 : ℚ) - 105| := by
    rw [abs_sub_comm 80 105]
    norm_num
  have h3a : ¬ |(90 : ℚ) - 105| < 2 := by
    rw [abs_sub_comm]
    norm_num
  have h3b : |(90 : ℚ) - 105| < |(90 : ℚ) - 73| := by
    rw [abs_sub_comm 90 105]
    norm_num
  exact ⟨⟨h1, (firstTarget_startup 104 73 105).1 h1⟩,
    ⟨h2a, h2b, (firstTarget_startup 80 73 105).2.1 h2a h2b⟩,
    ⟨h3a, h3b, (firstTarget_startup 90 73 105).2.2.1 h3a h3b⟩,
    (firstTarget_startup 0 73 105).2.2.2⟩

/-- C8: if the stop signal is set at the top of the loop or fires during the
interval wait, or is found set after the countdown, the iteration exits the
loop without handing any target to the move controller and without flipping
`next_is_stand` — a cancellation after the countdown is skip-and-stop, never
a move. -/
theorem autoIter_stop (sit stand : ℚ) (next skipped moveOk sw sc : Bool)
    (h : sw = true ∨ sc = true) :
    (autoIter sit stand next sw skipped sc moveOk).exits = true ∧
    (autoIter sit stand next sw skipped sc moveOk).moves = [] ∧
    (autoIter sit stand next sw skipped sc moveOk).nextIsStand = next ∧
    (autoIter sit stand next sw skipped sc moveOk).reported = none := by
  rcases h with rfl | rfl
  · exact ⟨rfl, rfl, rfl, rfl⟩
  · cases sw
    · exact ⟨rfl, rfl, rfl, rfl⟩
    · exact ⟨rfl, rfl, rfl, rfl⟩

/-- Witness for C8: a stop firing after the countdown in a non-skipped
iteration exits without moving or flipping. -/
theorem autoIter_stop_witness :
    ((false : Bool) = true ∨ (true : Bool) = true) ∧
    (autoIter 73 105 true false false true false).exits = true ∧
    (autoIter 73 105 true false false true false).moves = [] ∧
    (autoIter 73 105 true false false true false).nextIsStand = true ∧
    (autoIter 73 105 true false false true false).reported = none :=
  ⟨Or.inr rfl, autoIter_stop 73 105 true false false false true (Or.inr rfl)⟩

end DeskControl
